import Mathlib

/-!
Verification of the aichat recording server (src/aichat/server.py).

The Python module is shallowly embedded below.  External effects are made
explicit:

* the upstream track (`self.track.recv()`) is an `Option Frame` argument —
  `none` means the await raised (upstream exhausted or errored);
* fallible library calls (wave writes, cv2 codec opening, frame conversion,
  scipy availability, SDP negotiation steps) are Boolean oracles passed in;
* Python exceptions are modelled by the branch the surrounding
  `try/except` takes, and `Option`/`Except` results where a function can
  propagate an exception to its caller;
* file paths are records of directory, stem and extension (the fragment of
  `pathlib.Path` the module uses: `/`-joining and `with_suffix`);
* Python float arithmetic on sample counts is modelled as exact rational
  arithmetic (`int(...)` truncation becomes `Nat` floor division,
  `np.round` becomes round-half-to-even).
-/

/-- A file path, modelled as the recordings sub-directory (`"audio"` or
`"video"`), the file stem, and the extension.  `AUDIO_ROOT` and `VIDEO_ROOT`
are fixed prefixes ending in `recordings/audio` resp. `recordings/video`, so
only those last components are represented. -/
structure FPath where
  dir : String
  stem : String
  ext : String
  deriving DecidableEq, Repr

/-- `pathlib.Path.with_suffix`: replace the extension, keep the rest. -/
def FPath.with_suffix (p : FPath) (s : String) : FPath :=
  { p with ext := s }

/-- An audio frame as delivered by the relay subscription.  `sampleRateAttr`
is the `sample_rate` attribute when present (`getattr(frame, 'sample_rate',
self.sample_rate)` supplies the default otherwise); `samples` is the payload
`to_ndarray()` yields; `hasToNdarray` is `hasattr(frame, 'to_ndarray')`;
`toNdarrayOk` is whether `to_ndarray()` returns rather than raises. -/
structure AudioFrame where
  formatName : String
  sampleRateAttr : Option Nat
  samples : List Int
  hasToNdarray : Bool
  toNdarrayOk : Bool
  deriving DecidableEq, Repr

/-- A video frame from the relay subscription.  `bgrOk` is whether
`frame.to_ndarray(format="bgr24")` succeeds. -/
structure VideoFrame where
  width : Nat
  height : Nat
  bgrOk : Bool
  deriving DecidableEq, Repr

/-- The open WAV container: the parameters set at construction and the
samples written so far. -/
structure WavSink where
  nchannels : Nat
  sampwidth : Nat
  framerate : Nat
  written : List Int
  deriving DecidableEq, Repr

/-- A `cv2.VideoWriter`: the fourcc it was constructed with, whether
`isOpened()` holds, and how many frames were written. -/
structure VideoWriter where
  codec : String
  opened : Bool
  framesWritten : Nat
  deriving DecidableEq, Repr

/-- Environment for `_resample_audio`: whether `scipy` imports, and the
spectral resampler `scipy.signal.resample` (data, target length ↦ output),
kept abstract since its numerics are external. -/
structure ScipyEnv where
  available : Bool
  resample : List Int → Nat → List Int

/-- Result of a Track Processor `recv` call.  When a frame was obtained the
code returns it (`origFrame`).  When none was obtained the `except` handler
runs `return AudioFrame.empty()` resp. `return VideoFrame.empty()` — but
PyAV's frame classes have no `empty()` method, so that attribute lookup
raises and `recv` terminates with an `AttributeError` (`attributeError`).
`streamEnded` represents the `StreamEndedError` outcome the specification
describes; it is part of the type so that behaviour is statable, and the
embedded `recv` functions never produce it. -/
inductive RecvOut (F : Type) where
  | origFrame (f : F)
  | attributeError
  | streamEnded
  deriving DecidableEq, Repr

/-- Round-half-to-even of the rational `num / den` (the rounding `np.round`
applies to the index grid). -/
def roundHE (num den : Nat) : Nat :=
  let q := num / den
  let r := num % den
  if 2 * r < den then q
  else if den < 2 * r then q + 1
  else if q % 2 = 0 then q else q + 1

/-- The `i`-th entry of `np.round(np.linspace(0, n - 1, m))`: for `m ≤ 1`
the grid is `[0]` (or empty), otherwise the points are `i * (n-1) / (m-1)`
rounded half-to-even. -/
def linIdx (n m i : Nat) : Nat :=
  if m ≤ 1 then 0 else roundHE (i * (n - 1)) (m - 1)

/-- `np.round(np.linspace(0, n - 1, m)).astype(int)` as a list. -/
def linspaceIdx (n m : Nat) : List Nat :=
  (List.range m).map (linIdx n m)

/-- The fallback branch of `_resample_audio` (scipy unavailable):
`indices = np.round(np.linspace(0, len - 1, int(len * ratio))).astype(int)`
then `audio_data[indices]`.  `int(len * ratio)` with `ratio = dst / src`
truncates, hence `Nat` floor division. -/
def fallbackResample (data : List Int) (srcRate dstRate : Nat) : List Int :=
  let newLen := data.length * dstRate / srcRate
  (linspaceIdx data.length newLen).map (fun i => data.getD i 0)

/-- `AudioTrackProcessor._resample_audio`.  Both branches divide by
`src_rate`, so `src_rate = 0` raises `ZeroDivisionError` to the caller,
modelled as `none`.  With scipy, `n_samples = int(len * dst / src)` and the
spectral resampler runs; otherwise the fallback selection runs. -/
def resample_audio (scipy : ScipyEnv) (data : List Int) (srcRate dstRate : Nat) :
    Option (List Int) :=
  if srcRate = 0 then none
  else if scipy.available then
    some (scipy.resample data (data.length * dstRate / srcRate))
  else
    some (fallbackResample data srcRate dstRate)

/-- State of an `AudioTrackProcessor`.  The upstream track object is not
stored; each `recv` call receives the upstream outcome as an argument. -/
structure AudioTrackProcessor where
  user_id : String
  timestamp : String
  sample_rate : Nat
  filepath : FPath
  audio_file : Option WavSink
  deriving DecidableEq, Repr

/-- `AudioTrackProcessor.__init__`: open the WAV file under `AUDIO_ROOT`
named `f"{user_id}_{timestamp}.wav"` and set mono, 16-bit (sample width 2
bytes), 48000 Hz. -/
def AudioTrackProcessor.init (user_id timestamp : String) : AudioTrackProcessor :=
  { user_id := user_id
    timestamp := timestamp
    sample_rate := 48000
    filepath := ⟨"audio", user_id ++ "_" ++ timestamp, ".wav"⟩
    audio_file := some ⟨1, 2, 48000, []⟩ }

/-- `AudioTrackProcessor.recv`.  `upstream = none` means
`await self.track.recv()` raised; the outer `except` then takes its
`else` branch (`frame` is not bound) and evaluates `AudioFrame.empty()` —
an attribute `av.AudioFrame` does not have, so `recv` terminates by
raising `AttributeError`, with the processor state untouched.  When a
frame arrived, every later failure (conversion, resampling, `writeframes`)
is caught — by the outer handler in the `s16` branch, by the inner handler
in the `elif` branch — and the frame bound in `locals()` is returned.
`writeOk` is whether `writeframes` succeeds. -/
def AudioTrackProcessor.recv (p : AudioTrackProcessor) (upstream : Option AudioFrame)
    (scipy : ScipyEnv) (writeOk : Bool) : AudioTrackProcessor × RecvOut AudioFrame :=
  match upstream with
  | none => (p, .attributeError)
  | some frame =>
    match p.audio_file with
    | none => (p, .origFrame frame)
    | some wf =>
      let frame_sample_rate := frame.sampleRateAttr.getD p.sample_rate
      if frame.formatName = "s16" then
        if frame.toNdarrayOk then
          let soundOpt : Option (List Int) :=
            if frame_sample_rate ≠ p.sample_rate then
              resample_audio scipy frame.samples frame_sample_rate p.sample_rate
            else some frame.samples
          match soundOpt with
          | none => (p, .origFrame frame)
          | some sound =>
            if writeOk then
              ({ p with audio_file := some { wf with written := wf.written ++ sound } },
                .origFrame frame)
            else (p, .origFrame frame)
        else (p, .origFrame frame)
      else if frame.hasToNdarray then
        if frame.toNdarrayOk then
          let soundOpt : Option (List Int) :=
            if frame_sample_rate ≠ p.sample_rate then
              resample_audio scipy frame.samples frame_sample_rate p.sample_rate
            else some frame.samples
          match soundOpt with
          | none => (p, .origFrame frame)
          | some sound =>
            if writeOk then
              ({ p with audio_file := some { wf with written := wf.written ++ sound } },
                .origFrame frame)
            else (p, .origFrame frame)
        else (p, .origFrame frame)
      else (p, .origFrame frame)

/-- `AudioTrackProcessor.stop`.  `closeOk` is whether `self.audio_file.close()`
returns normally; either way (normal path or `except` path) the handle
becomes `None`.  The returned Bool records whether `close()` was invoked. -/
def AudioTrackProcessor.stop (p : AudioTrackProcessor) (closeOk : Bool) :
    AudioTrackProcessor × Bool :=
  match closeOk, p.audio_file with
  | _, some _ => ({ p with audio_file := none }, true)
  | _, none => (p, false)

/-- State of a `VideoTrackProcessor`.  The writer starts as `None` and is
created lazily on the first frame with known dimensions. -/
structure VideoTrackProcessor where
  user_id : String
  timestamp : String
  filepath : FPath
  writer : Option VideoWriter
  frame_size : Option (Nat × Nat)
  deriving DecidableEq, Repr

/-- `VideoTrackProcessor.__init__`: record the path
`VIDEO_ROOT / f"{user_id}_{timestamp}.avi"`; no writer yet. -/
def VideoTrackProcessor.init (user_id timestamp : String) : VideoTrackProcessor :=
  { user_id := user_id
    timestamp := timestamp
    filepath := ⟨"video", user_id ++ "_" ++ timestamp, ".avi"⟩
    writer := none
    frame_size := none }

/-- `VideoTrackProcessor.recv`.  `upstream = none` means the upstream await
raised; the outer `except` then evaluates `VideoFrame.empty()` — an
attribute `av.VideoFrame` does not have — so `recv` terminates by raising
`AttributeError`, with the processor state untouched.  On the first
frame with nonzero dimensions the writer is built: suffix forced to `.avi`,
`XVID` tried, then `mp4v` if `isOpened()` failed.  While a writer exists and
is opened, the frame is converted to BGR and written; a conversion or write
failure is caught by the inner handler.  `codecOpens c` is whether a
`cv2.VideoWriter` built with fourcc `c` reports `isOpened()`; `writeOk` is
whether `writer.write` succeeds. -/
def VideoTrackProcessor.recv (p : VideoTrackProcessor) (upstream : Option VideoFrame)
    (codecOpens : String → Bool) (writeOk : Bool) :
    VideoTrackProcessor × RecvOut VideoFrame :=
  match upstream with
  | none => (p, .attributeError)
  | some frame =>
    let p1 :=
      match p.writer with
      | some _ => p
      | none =>
        if frame.width ≠ 0 ∧ frame.height ≠ 0 then
          let fp := p.filepath.with_suffix ".avi"
          let w0 : VideoWriter := ⟨"XVID", codecOpens "XVID", 0⟩
          let w1 := if w0.opened then w0 else ⟨"mp4v", codecOpens "mp4v", 0⟩
          { p with frame_size := some (frame.width, frame.height)
                   filepath := fp
                   writer := some w1 }
        else p
    match p1.writer with
    | none => (p1, .origFrame frame)
    | some w =>
      if w.opened then
        if frame.bgrOk ∧ writeOk then
          ({ p1 with writer := some { w with framesWritten := w.framesWritten + 1 } },
            .origFrame frame)
        else (p1, .origFrame frame)
      else (p1, .origFrame frame)

/-- `VideoTrackProcessor.stop`: release the writer if present; the handle
becomes `None` on the normal path and on the `except` path alike.  The
returned Bool records whether `release()` was invoked. -/
def VideoTrackProcessor.stop (p : VideoTrackProcessor) (closeOk : Bool) :
    VideoTrackProcessor × Bool :=
  match closeOk, p.writer with
  | _, some _ => ({ p with writer := none }, true)
  | _, none => (p, false)

/-- The per-connection state the `offer` handler's closures share: whether
the peer connection is still open, whether it is in the module-level `pcs`
set, and the track processors created by the `track` callback (`None` until
the corresponding track arrives). -/
structure SessionState where
  pcOpen : Bool
  inRegistry : Bool
  audio : Option AudioTrackProcessor
  video : Option VideoTrackProcessor
  deriving DecidableEq, Repr

/-- Which releases a connection-state notification actually performed:
`pcClosed` — the peer connection went from open to closed;
`audioCloseInvoked` / `videoReleaseInvoked` — the sink handle was closed. -/
structure CleanupEvents where
  pcClosed : Bool
  audioCloseInvoked : Bool
  videoReleaseInvoked : Bool
  deriving DecidableEq, Repr

/-- No release performed. -/
def noCleanup : CleanupEvents := ⟨false, false, false⟩

/-- The `on_connectionstatechange` callback.  Only the `"failed"` state is
handled: `await pc.close()` (a no-op when the connection is already closed),
`pcs.discard(pc)`, then `stop()` on each processor that exists.  Every other
state only logs. -/
def on_connectionstatechange (st : SessionState) (connectionState : String) :
    SessionState × CleanupEvents :=
  if connectionState = "failed" then
    let pcClosedNow := st.pcOpen
    let audioInvoked :=
      match st.audio with
      | none => false
      | some ap => (ap.stop true).2
    let videoInvoked :=
      match st.video with
      | none => false
      | some vp => (vp.stop true).2
    ({ pcOpen := false
       inRegistry := false
       audio := match st.audio with
                | none => none
                | some ap => some (ap.stop true).1
       video := match st.video with
                | none => none
                | some vp => some (vp.stop true).1 },
      ⟨pcClosedNow, audioInvoked, videoInvoked⟩)
  else (st, noCleanup)

/-- Environment for one call of the `offer` handler: which of its fallible
steps succeed.  `jsonOk` — `request.json()` parses and has the `sdp`/`type`
keys; `typeValid` — `RTCSessionDescription` accepts the `type` field;
`setRemoteOk`, `createAnswerOk`, `setLocalOk` — the corresponding peer
connection calls succeed. -/
structure OfferEnv where
  jsonOk : Bool
  typeValid : Bool
  setRemoteOk : Bool
  createAnswerOk : Bool
  setLocalOk : Bool
  deriving DecidableEq, Repr

/-- The exception classes that can escape the `offer` handler (the aiohttp
layer turns each into a non-2xx response). -/
inductive OfferError where
  | badRequest
  | invalidType
  | remoteDescriptionFailed
  | answerFailed
  | localDescriptionFailed
  deriving DecidableEq, Repr

/-- The `offer` request handler.  `pcs` is the module-level registry of peer
connections (as a list of identifiers), `pcId` the identifier of the
`RTCPeerConnection` this call constructs.  The handler adds the new
connection to `pcs` before `setRemoteDescription` and never removes it on
failure.  `.ok pcId` is the successful JSON answer for that connection. -/
def offer (env : OfferEnv) (pcs : List Nat) (pcId : Nat) :
    Except OfferError Nat × List Nat :=
  if ¬env.jsonOk then (.error .badRequest, pcs)
  else if ¬env.typeValid then (.error .invalidType, pcs)
  else
    let pcs1 := pcId :: pcs
    if ¬env.setRemoteOk then (.error .remoteDescriptionFailed, pcs1)
    else if ¬env.createAnswerOk then (.error .answerFailed, pcs1)
    else if ¬env.setLocalOk then (.error .localDescriptionFailed, pcs1)
    else (.ok pcId, pcs1)

/-- A concrete scipy environment where the import fails (fallback path). -/
def noScipy : ScipyEnv :=
  { available := false, resample := fun _ n => List.replicate n 0 }

/-- The output length the specification text states for the fallback
resampler: `round(old_length * target_rate / source_rate)` with Python's
half-to-even rounding.  Spec-side definition, to be compared with the
embedded `fallbackResample`. -/
def claimRoundLen (oldLen srcRate dstRate : Nat) : Nat :=
  roundHE (oldLen * dstRate) srcRate

/-- Helper: whenever the upstream track yields a frame, the audio `recv`
returns that frame, in every branch (conversion, resampling and write
failures included). -/
theorem audio_recv_some_snd (p : AudioTrackProcessor) (f : AudioFrame)
    (s : ScipyEnv) (w : Bool) :
    (p.recv (some f) s w).2 = RecvOut.origFrame f := by
  rcases p with ⟨u, t, sr, fp, af⟩
  cases af with
  | none => rfl
  | some wf =>
    unfold AudioTrackProcessor.recv
    dsimp only
    repeat' split
    all_goals rfl

/-- Helper: whenever the upstream track yields a frame, the video `recv`
returns that frame, in every branch (codec opening, conversion and write
failures included). -/
theorem video_recv_some_snd (p : VideoTrackProcessor) (f : VideoFrame)
    (c : String → Bool) (w : Bool) :
    (p.recv (some f) c w).2 = RecvOut.origFrame f := by
  rcases p with ⟨u, t, fp, wr, fs⟩
  unfold VideoTrackProcessor.recv
  dsimp only
  repeat' split
  all_goals rfl

/-- C1, counterexample: the claim says a `recv` with no obtainable upstream
frame fails with `StreamEndedError`.  On a freshly constructed audio and
video processor with an exhausted/errored upstream, the upstream exception
is caught, but the handler's `return AudioFrame.empty()` resp.
`return VideoFrame.empty()` names a method PyAV does not provide, so `recv`
terminates with an `AttributeError` — the claimed `streamEnded` outcome
does not occur. -/
theorem c1_counterexample :
    (AudioTrackProcessor.recv (AudioTrackProcessor.init "u" "t") none noScipy true).2
        = RecvOut.attributeError ∧
    (AudioTrackProcessor.recv (AudioTrackProcessor.init "u" "t") none noScipy true).2
        ≠ RecvOut.streamEnded ∧
    (VideoTrackProcessor.recv (VideoTrackProcessor.init "u" "t") none
        (fun _ => false) true).2 = RecvOut.attributeError ∧
    (VideoTrackProcessor.recv (VideoTrackProcessor.init "u" "t") none
        (fun _ => false) true).2 ≠ RecvOut.streamEnded := by
  have ha : (AudioTrackProcessor.recv (AudioTrackProcessor.init "u" "t") none
      noScipy true).2 = RecvOut.attributeError := rfl
  have hv : (VideoTrackProcessor.recv (VideoTrackProcessor.init "u" "t") none
      (fun _ => false) true).2 = RecvOut.attributeError := rfl
  refine ⟨ha, ?_, hv, ?_⟩
  · rw [ha]; simp
  · rw [hv]; simp

/-- C1, amended: if no frame is obtainable from upstream (upstream
exhausted or errored), `recv` does fail — but with `AttributeError`, not
`StreamEndedError`: the `except` handler catches the upstream error and
then calls the nonexistent `AudioFrame.empty()` / `VideoFrame.empty()`.
The processor's recording state is left untouched, and no Session or
registry state is involved, so only the caller awaiting this processor
sees the error. -/
theorem c1_amended_recv_raises_attribute_error :
    (∀ (p : AudioTrackProcessor) (s : ScipyEnv) (w : Bool),
        p.recv none s w = (p, RecvOut.attributeError)) ∧
    (∀ (q : VideoTrackProcessor) (c : String → Bool) (w : Bool),
        q.recv none c w = (q, RecvOut.attributeError)) :=
  ⟨fun _ _ _ => rfl, fun _ _ _ => rfl⟩

/-- C5: for every frame successfully pulled from the relay subscription,
`recv` returns that original frame unmodified, for audio and video alike,
whatever the outcome of the sink append (conversion, resampling, write). -/
theorem c5_frame_passthrough :
    (∀ (p : AudioTrackProcessor) (f : AudioFrame) (s : ScipyEnv) (w : Bool),
        (p.recv (some f) s w).2 = RecvOut.origFrame f) ∧
    (∀ (q : VideoTrackProcessor) (f : VideoFrame) (c : String → Bool) (w : Bool),
        (q.recv (some f) c w).2 = RecvOut.origFrame f) :=
  ⟨audio_recv_some_snd, video_recv_some_snd⟩

/-- C6: a second `stop()` right after a first one is a no-op for audio and
video processors alike: the state is unchanged and the close/release of the
sink handle is not invoked again, so resources are released at most once. -/
theorem c6_stop_idempotent :
    (∀ (p : AudioTrackProcessor) (b1 b2 : Bool),
        ((p.stop b1).1).stop b2 = ((p.stop b1).1, false)) ∧
    (∀ (q : VideoTrackProcessor) (b1 b2 : Bool),
        ((q.stop b1).1).stop b2 = ((q.stop b1).1, false)) := by
  constructor
  · intro p b1 b2
    rcases p with ⟨u, t, sr, fp, af⟩
    cases af <;> cases b1 <;> cases b2 <;> rfl
  · intro q b1 b2
    rcases q with ⟨u, t, fp, wr, fs⟩
    cases wr <;> cases b1 <;> cases b2 <;> rfl

/-- C8: the audio sink is configured at construction for exactly one
channel, sample width 2 bytes (16-bit PCM), and a 48000 Hz rate, with no
samples written yet; the processor's target rate is likewise 48000 Hz. -/
theorem c8_wav_params :
    ∀ (u t : String),
      (AudioTrackProcessor.init u t).audio_file = some ⟨1, 2, 48000, []⟩ ∧
      (AudioTrackProcessor.init u t).sample_rate = 48000 :=
  fun _ _ => ⟨rfl, rfl⟩

/-- C10: after any `stop()` of an audio processor — including when the
close raised, `closeOk = false` — the handle is `None`; every later
`stop()` is a no-op that does not invoke close again, and every later
`recv` leaves the state unchanged (records nothing) while still returning
the frame received from upstream. -/
theorem c10_stop_clears_handle :
    ∀ (p : AudioTrackProcessor) (b : Bool),
      (p.stop b).1.audio_file = none ∧
      (∀ b2 : Bool, ((p.stop b).1).stop b2 = ((p.stop b).1, false)) ∧
      (∀ (f : AudioFrame) (s : ScipyEnv) (w : Bool),
          ((p.stop b).1).recv (some f) s w = ((p.stop b).1, RecvOut.origFrame f)) := by
  intro p b
  rcases p with ⟨u, t, sr, fp, af⟩
  cases af <;> cases b <;>
    exact ⟨rfl, fun b2 => by cases b2 <;> rfl, fun f s w => rfl⟩

/-- Helper: `stop` on an audio processor clears the handle and reports
whether close was invoked (iff a handle was present). -/
theorem audio_stop_eq (p : AudioTrackProcessor) (b : Bool) :
    p.stop b = ({ p with audio_file := none }, p.audio_file.isSome) := by
  rcases p with ⟨u, t, sr, fp, af⟩
  cases af <;> cases b <;> rfl

/-- Helper: `stop` on a video processor clears the writer and reports
whether release was invoked (iff a writer was present). -/
theorem video_stop_eq (q : VideoTrackProcessor) (b : Bool) :
    q.stop b = ({ q with writer := none }, q.writer.isSome) := by
  rcases q with ⟨u, t, fp, wr, fs⟩
  cases wr <;> cases b <;> rfl

/-- C2, counterexample: with a well-formed request whose
`setRemoteDescription` fails (the transport cannot produce an answer), the
handler surfaces an error — but the peer connection it created beforehand
stays in the module-level registry, contradicting the claim that no peer
connection remains registered after a failed call. -/
theorem c2_counterexample :
    (offer ⟨true, true, false, true, true⟩ [] 7).2 = [7] ∧
    (∃ e, (offer ⟨true, true, false, true, true⟩ [] 7).1 = Except.error e) :=
  ⟨rfl, ⟨OfferError.remoteDescriptionFailed, rfl⟩⟩

/-- C2, amended: the handler succeeds exactly when every negotiation step
succeeds, so every failure is surfaced to the caller and no answer/Session
is produced; however the peer connection is registered before negotiation:
a failure while parsing the request or constructing the session description
leaves the registry unchanged, while a failure in `setRemoteDescription`,
`createAnswer` or `setLocalDescription` leaves the newly created peer
connection registered (it is not removed on failure). -/
theorem c2_amended_offer_registry :
    ∀ (env : OfferEnv) (pcs : List Nat) (pcId : Nat),
      ((∃ a, (offer env pcs pcId).1 = Except.ok a) ↔
        (env.jsonOk = true ∧ env.typeValid = true ∧ env.setRemoteOk = true ∧
         env.createAnswerOk = true ∧ env.setLocalOk = true)) ∧
      (offer env pcs pcId).2 =
        (if env.jsonOk = true ∧ env.typeValid = true then pcId :: pcs else pcs) := by
  intro env pcs pcId
  rcases env with ⟨j, t, r, a, l⟩
  cases j <;> cases t <;> cases r <;> cases a <;> cases l <;> simp [offer]

/-- C3, counterexample: the claim says a connection-state transition to
`closed` triggers the terminal cleanup.  On a session that is open,
registered, and holds a running audio processor, the `closed` notification
performs no cleanup at all: the state is returned untouched (still
registered, sink still open) and no release event occurs — only `failed` is
handled by the callback. -/
theorem c3_counterexample :
    on_connectionstatechange
        ⟨true, true, some (AudioTrackProcessor.init "u" "t"), none⟩ "closed"
      = (⟨true, true, some (AudioTrackProcessor.init "u" "t"), none⟩, noCleanup) ∧
    (AudioTrackProcessor.init "u" "t").audio_file ≠ none := by
  constructor
  · simp [on_connectionstatechange]
  · simp [AudioTrackProcessor.init]

/-- C3, amended: only the transition to `failed` triggers the terminal
cleanup, which stops every Track Processor of the Session, releases the
peer connection and removes the Session from the registry; that cleanup is
idempotent — a second `failed` notification leaves the state unchanged and
performs no release — while a `closed` notification performs no cleanup at
all. -/
theorem c3_amended_cleanup :
    ∀ st : SessionState,
      (on_connectionstatechange st "failed").1 =
        { pcOpen := false
          inRegistry := false
          audio := st.audio.map (fun ap => { ap with audio_file := none })
          video := st.video.map (fun vp => { vp with writer := none }) } ∧
      on_connectionstatechange (on_connectionstatechange st "failed").1 "failed" =
        ((on_connectionstatechange st "failed").1, noCleanup) ∧
      on_connectionstatechange st "closed" = (st, noCleanup) := by
  intro st
  rcases st with ⟨po, ir, a, v⟩
  refine ⟨?_, ?_, ?_⟩
  · cases a <;> cases v <;>
      simp [on_connectionstatechange, audio_stop_eq, video_stop_eq]
  · cases a <;> cases v <;>
      simp [on_connectionstatechange, audio_stop_eq, video_stop_eq, noCleanup]
  · simp [on_connectionstatechange, noCleanup]

/-- C4: when both codecs of the fallback list fail to open on the first
frame with known dimensions, the writer is left in the unopened `mp4v`
state (the sink never opens), the received frame is still returned, and
every subsequent `recv` — under any later codec/write environment — is a
silent no-op for the sink: the state is unchanged, nothing is written, no
error is raised, and the frame is still returned. -/
theorem c4_codec_fallback_exhausted (u t : String) (fp : FPath)
    (fs : Option (Nat × Nat)) (f : VideoFrame) (c : String → Bool) (w : Bool)
    (hfw : f.width ≠ 0) (hfh : f.height ≠ 0)
    (hx : c "XVID" = false) (hm : c "mp4v" = false) :
    (VideoTrackProcessor.recv ⟨u, t, fp, none, fs⟩ (some f) c w).1.writer
        = some ⟨"mp4v", false, 0⟩ ∧
    (VideoTrackProcessor.recv ⟨u, t, fp, none, fs⟩ (some f) c w).2
        = RecvOut.origFrame f ∧
    (∀ (g : VideoFrame) (c2 : String → Bool) (w2 : Bool),
      VideoTrackProcessor.recv
          (VideoTrackProcessor.recv ⟨u, t, fp, none, fs⟩ (some f) c w).1
          (some g) c2 w2
        = ((VideoTrackProcessor.recv ⟨u, t, fp, none, fs⟩ (some f) c w).1,
            RecvOut.origFrame g)) := by
  have key : VideoTrackProcessor.recv ⟨u, t, fp, none, fs⟩ (some f) c w
      = (⟨u, t, fp.with_suffix ".avi", some ⟨"mp4v", false, 0⟩,
          some (f.width, f.height)⟩, RecvOut.origFrame f) := by
    unfold VideoTrackProcessor.recv
    simp [hx, hm, hfw, hfh]
  rw [key]
  exact ⟨rfl, rfl, fun g c2 w2 => rfl⟩

/-- C4, witness: a concrete first frame with both codecs failing. -/
theorem c4_witness :
    (VideoTrackProcessor.recv ⟨"u", "t", ⟨"video", "u_t", ".avi"⟩, none, none⟩
        (some ⟨2, 2, true⟩) (fun _ => false) true).1.writer
        = some ⟨"mp4v", false, 0⟩ ∧
    (VideoTrackProcessor.recv ⟨"u", "t", ⟨"video", "u_t", ".avi"⟩, none, none⟩
        (some ⟨2, 2, true⟩) (fun _ => false) true).2
        = RecvOut.origFrame ⟨2, 2, true⟩ ∧
    (∀ (g : VideoFrame) (c2 : String → Bool) (w2 : Bool),
      VideoTrackProcessor.recv
          (VideoTrackProcessor.recv ⟨"u", "t", ⟨"video", "u_t", ".avi"⟩, none, none⟩
              (some ⟨2, 2, true⟩) (fun _ => false) true).1
          (some g) c2 w2
        = ((VideoTrackProcessor.recv ⟨"u", "t", ⟨"video", "u_t", ".avi"⟩, none, none⟩
              (some ⟨2, 2, true⟩) (fun _ => false) true).1,
            RecvOut.origFrame g)) :=
  c4_codec_fallback_exhausted "u" "t" ⟨"video", "u_t", ".avi"⟩ none ⟨2, 2, true⟩
    (fun _ => false) true (by decide) (by decide) rfl rfl

/-- Helper: the index grid always has exactly the requested length. -/
theorem linspaceIdx_length (n m : Nat) : (linspaceIdx n m).length = m := by
  simp [linspaceIdx]

/-- C7, counterexample: the claim says the fallback produces
`round(old_length * target_rate / source_rate)` samples.  For one input
sample resampled from rate 2 to rate 3 the code computes
`int(1 * 3 / 2) = 1` (truncation), while the claimed `round(3 / 2) = 2`:
the output has 1 sample, not 2. -/
theorem c7_counterexample :
    resample_audio noScipy [7] 2 3 = some [7] ∧
    (fallbackResample [7] 2 3).length = 1 ∧
    claimRoundLen 1 2 3 = 2 := by
  refine ⟨?_, ?_, ?_⟩ <;> decide

/-- C7, amended: with scipy unavailable and a nonzero source rate, the
fallback resampler returns (without raising) a list of exactly
`⌊old_length * target_rate / source_rate⌋` samples — `int(...)`
truncation, not `round(...)` — each taken from the input at the
half-to-even-rounded evenly spaced positions
`np.round(np.linspace(0, old_length - 1, new_length))`. -/
theorem c7_fallback_floor_length (scipy : ScipyEnv) (data : List Int)
    (src dst : Nat) (hs : scipy.available = false) (h0 : src ≠ 0) :
    resample_audio scipy data src dst = some (fallbackResample data src dst) ∧
    (fallbackResample data src dst).length = data.length * dst / src ∧
    (∀ i : Nat, i < (fallbackResample data src dst).length →
      (fallbackResample data src dst).getD i 0
        = data.getD (linIdx data.length (data.length * dst / src) i) 0) := by
  refine ⟨?_, ?_, ?_⟩
  · simp [resample_audio, h0, hs]
  · simp [fallbackResample, linspaceIdx]
  · intro i hi
    simp only [fallbackResample, linspaceIdx, List.length_map,
      List.length_range] at hi
    simp [fallbackResample, linspaceIdx, List.getD_eq_getElem?_getD,
      List.getElem?_map, List.getElem?_range, hi]

/-- C7, witness: three samples from rate 2 to rate 3 give
`⌊3 · 3 / 2⌋ = 4` output samples at the rounded grid positions. -/
theorem c7_witness :
    resample_audio noScipy [4, 5, 6] 2 3 = some (fallbackResample [4, 5, 6] 2 3) ∧
    (fallbackResample [4, 5, 6] 2 3).length = [4, 5, 6].length * 3 / 2 ∧
    (∀ i : Nat, i < (fallbackResample [4, 5, 6] 2 3).length →
      (fallbackResample [4, 5, 6] 2 3).getD i 0
        = [4, 5, 6].getD (linIdx [4, 5, 6].length ([4, 5, 6].length * 3 / 2) i) 0) :=
  c7_fallback_floor_length noScipy [4, 5, 6] 2 3 rfl (by decide)

/-- C9, counterexample: two runs whose fallback chains open different
codecs — one opens `XVID`, the other falls back to and opens `mp4v` —
produce the same fixed `.avi` extension: the extension does not reflect
the codec actually opened. -/
theorem c9_counterexample :
    (VideoTrackProcessor.recv (VideoTrackProcessor.init "u" "t")
        (some ⟨2, 2, true⟩) (fun c => c == "XVID") true).1.writer
      = some ⟨"XVID", true, 1⟩ ∧
    (VideoTrackProcessor.recv (VideoTrackProcessor.init "u" "t")
        (some ⟨2, 2, true⟩) (fun c => c == "mp4v") true).1.writer
      = some ⟨"mp4v", true, 1⟩ ∧
    (VideoTrackProcessor.recv (VideoTrackProcessor.init "u" "t")
        (some ⟨2, 2, true⟩) (fun c => c == "XVID") true).1.filepath.ext
      = ".avi" ∧
    (VideoTrackProcessor.recv (VideoTrackProcessor.init "u" "t")
        (some ⟨2, 2, true⟩) (fun c => c == "mp4v") true).1.filepath.ext
      = ".avi" := by
  refine ⟨?_, ?_, ?_, ?_⟩ <;> rfl

/-- C9, amended: audio tracks are recorded at
`audio/<sessionId>_<timestamp>.wav` and video tracks at
`video/<sessionId>_<timestamp>.avi`; the video extension is the fixed
string `.avi` (set at construction and re-forced on the first frame),
independent of which codec the fallback chain opened. -/
theorem c9_amended_paths :
    ∀ (u t : String) (up : Option VideoFrame) (c : String → Bool) (w : Bool),
      (AudioTrackProcessor.init u t).filepath = ⟨"audio", u ++ "_" ++ t, ".wav"⟩ ∧
      (VideoTrackProcessor.init u t).filepath = ⟨"video", u ++ "_" ++ t, ".avi"⟩ ∧
      ((VideoTrackProcessor.init u t).recv up c w).1.filepath
        = ⟨"video", u ++ "_" ++ t, ".avi"⟩ := by
  intro u t up c w
  refine ⟨rfl, rfl, ?_⟩
  cases up with
  | none => rfl
  | some f =>
    unfold VideoTrackProcessor.recv
    dsimp only
    repeat' split
    all_goals rfl
